import Mathlib

/-!
Shallow embedding of the resilient dual-transport client of the trading
dashboard (source: src/services/websocket.ts, class WebSocketService).

The client is single-threaded (browser event loop).  Stateful methods are
embedded as explicit state-passing functions; the asynchronous `connect`
promise is split into its synchronous entry (the idempotency guard plus the
channel-open attempt, lines 45-60) and the settling of the promise by the
first lifecycle event that fires (lines 62-130).  Machine integers do not
occur; counters are Nat.
-/

namespace WsClient

/-- Mutable fields of WebSocketService relevant to the connection manager
(lines 17-28 of websocket.ts): `useWebSocket` is the transport-mode flag
(`true` = ChannelPreferred, `false` = FallbackOnly), `isConnected` the
client's own connected flag, `socketExists` whether `this.socket` is
non-null, `socketConnected` the underlying channel's `connected` property,
and `reconnectAttempts` the bounded-retry counter. -/
structure CState where
  useWebSocket : Bool
  isConnected : Bool
  socketExists : Bool
  socketConnected : Bool
  reconnectAttempts : Nat
  deriving Repr, DecidableEq

/-- `maxReconnectAttempts = 5` (line 20). -/
def maxReconnectAttempts : Nat := 5

/-- Initial state of the singleton (lines 18-24): channel preferred, not
connected, no socket, zero attempts. -/
def initialState : CState :=
  { useWebSocket := true, isConnected := false, socketExists := false,
    socketConnected := false, reconnectAttempts := 0 }

/-- Synchronous entry of `connect()` (lines 45-60): if `isConnected` and
`socket?.connected` the promise resolves at once and no channel is opened;
otherwise `io(...)` is called with `forceNew: true`, opening a fresh
channel (socket assigned, not yet connected).  The Bool records whether a
new channel-open attempt was made. -/
def connectEntry (s : CState) : CState × Bool :=
  if s.isConnected && (s.socketExists && s.socketConnected) then (s, false)
  else ({ s with socketExists := true, socketConnected := false }, true)

/-- The first lifecycle event that settles a pending `connect()` promise:
the `connect` event (line 76), the 5000 ms connection timeout (line 63),
a `connect_error` event (line 97), an `error` event (line 115), or a
synchronous throw from channel creation (line 123). -/
inductive ConnEvent where
  | connected
  | timeoutFired
  | connectErrorEvent
  | errorEvent
  | syncThrow
  deriving Repr, DecidableEq

/-- How a `connect()` promise settles. -/
inductive PromiseOutcome where
  | resolved
  | rejected
  deriving Repr, DecidableEq

/-- Settling of the `connect()` promise by the first event to fire
(lines 62-130).  `connect` (line 76-83): mark connected, prefer channel,
reset the attempt counter, resolve.  Timeout (line 63-74): demote to
fallback, tear the nascent socket down, resolve.  `connect_error`
(line 97-104) and `error` (line 115-122): clear connected, demote,
resolve.  Synchronous creation failure (line 123-130): demote, resolve.
No branch of the source ever calls `reject`. -/
def connectSettle (s : CState) (ev : ConnEvent) : CState × PromiseOutcome :=
  match ev with
  | .connected =>
      ({ s with isConnected := true, socketConnected := true,
                useWebSocket := true, reconnectAttempts := 0 },
       .resolved)
  | .timeoutFired =>
      ({ s with useWebSocket := false, isConnected := false,
                socketExists := false, socketConnected := false },
       .resolved)
  | .connectErrorEvent =>
      ({ s with isConnected := false, useWebSocket := false }, .resolved)
  | .errorEvent =>
      ({ s with isConnected := false, useWebSocket := false }, .resolved)
  | .syncThrow =>
      ({ s with useWebSocket := false }, .resolved)

/-- `handleReconnect` (lines 156-180): when the counter has reached
`maxReconnectAttempts` it demotes to fallback and returns without
scheduling; otherwise it increments the counter and schedules a delayed
`connect()`.  The Bool records whether a reconnection attempt was
scheduled. -/
def handleReconnect (s : CState) : CState × Bool :=
  if s.reconnectAttempts ≥ maxReconnectAttempts then
    ({ s with useWebSocket := false }, false)
  else
    ({ s with reconnectAttempts := s.reconnectAttempts + 1 }, true)

/-- Guard of the periodic 30 000 ms health check in the constructor
(lines 35-42): `connect()` is invoked iff `useWebSocket` is set and the
client is not connected (`!isConnected || !socket?.connected`). -/
def healthCheckTriggers (s : CState) : Bool :=
  s.useWebSocket && (!s.isConnected || !(s.socketExists && s.socketConnected))

end WsClient

namespace WsClient

/-- Claim C2: `connect()` never rejects — every settling event resolves the
promise, and for every failure mode (timeout, connect_error, error event,
synchronous creation failure) the state afterwards has `useWebSocket =
false` (TransportMode FallbackOnly). -/
theorem connect_never_rejects (s : CState) (ev : ConnEvent) :
    (connectSettle s ev).2 = PromiseOutcome.resolved ∧
    (ev ≠ ConnEvent.connected → (connectSettle s ev).1.useWebSocket = false) := by
  cases ev <;> simp [connectSettle]

/-- Witness for C2: from the initial state, a connect timeout resolves the
promise and leaves the client in fallback mode. -/
theorem connect_never_rejects_witness :
    (connectSettle initialState ConnEvent.timeoutFired).2 = PromiseOutcome.resolved ∧
    (ConnEvent.timeoutFired ≠ ConnEvent.connected →
      (connectSettle initialState ConnEvent.timeoutFired).1.useWebSocket = false) :=
  connect_never_rejects initialState ConnEvent.timeoutFired

/-- Counterexample to claim C3: after the bounded-retry path has exhausted
its five attempts and demoted the client to fallback mode, the periodic
health check does NOT trigger a fresh `connect()` even though the client is
not connected — its guard (line 36) requires `useWebSocket` to be true. -/
theorem health_check_dead_after_exhaustion :
    (let s := { useWebSocket := true, isConnected := false,
                socketExists := false, socketConnected := false,
                reconnectAttempts := 5 : CState }
     let s' := (handleReconnect s).1
     s'.useWebSocket = false ∧ s'.isConnected = false ∧
       healthCheckTriggers s' = false) := by
  decide

/-- Claim C3 (amended): the health check triggers a connect call iff
`useWebSocket` is true and the client is not connected; consequently, once
exhaustion of `maxAttempts` has demoted the mode to FallbackOnly, the
health check is inert (it schedules nothing), and a successful connect
event is what restores ChannelPreferred. -/
theorem health_check_only_when_channel_preferred (s : CState) :
    (s.reconnectAttempts ≥ maxReconnectAttempts →
      (handleReconnect s).1.useWebSocket = false ∧
      healthCheckTriggers (handleReconnect s).1 = false) ∧
    (s.useWebSocket = true → s.isConnected = false →
      healthCheckTriggers s = true) ∧
    (connectSettle s ConnEvent.connected).1.useWebSocket = true := by
  refine ⟨fun h => ?_, fun h1 h2 => ?_, ?_⟩
  · simp [handleReconnect, h, healthCheckTriggers]
  · simp [healthCheckTriggers, h1, h2]
  · simp [connectSettle]

/-- Witness for the amended C3 at a concrete exhausted state. -/
theorem health_check_only_when_channel_preferred_witness :
    (let s := { useWebSocket := true, isConnected := false,
                socketExists := false, socketConnected := false,
                reconnectAttempts := 5 : CState }
     (handleReconnect s).1.useWebSocket = false ∧
       healthCheckTriggers (handleReconnect s).1 = false) := by
  exact (health_check_only_when_channel_preferred _).1 (by decide)

/-- Counterexample to claim C4: a second `connect()` entered while a first
connect is still in flight (socket assigned but not yet connected, client
not connected) passes the idempotency guard and opens a second channel:
starting from the initial disconnected state, two successive entries each
make a channel-open attempt. -/
theorem concurrent_connect_opens_two_channels :
    (connectEntry initialState).2 = true ∧
    (connectEntry (connectEntry initialState).1).2 = true := by
  decide

/-- Claim C4 (amended): `connect()` is coalesced only with an already
established connection — when `isConnected` and the socket is connected, a
second call makes no new channel-open attempt and leaves the state
untouched; but while a connect is merely in flight (`isConnected` still
false) a second call does open another channel. -/
theorem connect_idempotent_only_when_connected (s : CState) :
    (s.isConnected = true → s.socketExists = true → s.socketConnected = true →
      (connectEntry s).2 = false ∧ (connectEntry s).1 = s) ∧
    (s.isConnected = false → (connectEntry s).2 = true) := by
  constructor
  · intro h1 h2 h3
    simp [connectEntry, h1, h2, h3]
  · intro h1
    simp [connectEntry, h1]

/-- Witness for the amended C4: with an established connection the entry
makes no attempt; from the initial state it does. -/
theorem connect_idempotent_only_when_connected_witness :
    (let sConn := { useWebSocket := true, isConnected := true,
                    socketExists := true, socketConnected := true,
                    reconnectAttempts := 0 : CState }
     ((connectEntry sConn).2 = false ∧ (connectEntry sConn).1 = sConn)) ∧
    (connectEntry initialState).2 = true := by
  exact ⟨(connect_idempotent_only_when_connected _).1 rfl rfl rfl,
         (connect_idempotent_only_when_connected initialState).2 rfl⟩

/-- Claim C6: once the attempt counter has reached `maxAttempts` (5), the
failure path schedules no further reconnection: `handleReconnect` demotes
the mode to FallbackOnly, changes nothing else, and returns without
scheduling a connect.  Moreover the counter reaches 0 only through a
successful connection: `handleReconnect` never zeroes a counter, and a
settling event that leaves the counter at 0 is either the `connect` success
event or started from an already-zero counter. -/
theorem bounded_retry_and_reset (s : CState) :
    (s.reconnectAttempts ≥ maxReconnectAttempts →
      handleReconnect s =
        ({ s with useWebSocket := false }, false)) ∧
    (s.reconnectAttempts ≠ 0 → (handleReconnect s).1.reconnectAttempts ≠ 0) ∧
    (∀ ev : ConnEvent, (connectSettle s ev).1.reconnectAttempts = 0 →
      ev = ConnEvent.connected ∨ s.reconnectAttempts = 0) := by
  refine ⟨fun h => ?_, fun h => ?_, fun ev h => ?_⟩
  · simp [handleReconnect, h]
  · unfold handleReconnect
    split <;> simp_all
  · cases ev <;> simp_all [connectSettle]

/-- Witness for C6 at an exhausted counter and a non-success event. -/
theorem bounded_retry_and_reset_witness :
    (let s := { useWebSocket := true, isConnected := false,
                socketExists := true, socketConnected := false,
                reconnectAttempts := 5 : CState }
     handleReconnect s = ({ s with useWebSocket := false }, false) ∧
       (handleReconnect s).1.reconnectAttempts ≠ 0 ∧
       ((connectSettle s ConnEvent.timeoutFired).1.reconnectAttempts = 0 →
         ConnEvent.timeoutFired = ConnEvent.connected ∨ (5 : Nat) = 0)) := by
  refine ⟨(bounded_retry_and_reset _).1 (by decide),
          (bounded_retry_and_reset _).2.1 (by decide),
          (bounded_retry_and_reset _).2.2 ConnEvent.timeoutFired⟩

end WsClient

namespace WsClient

/-!
Request correlator and inbound message handling (lines 134-223).
Inbound messages are dynamically typed JavaScript values; the fields the
handler inspects are embedded as `JSVal` with JavaScript truthiness.
The pending-request map is keyed by string request ids; only the key set
matters for the claims, so it is embedded as the list of pending ids
(a `Map` has no duplicate keys, and deletion removes the key).
-/

/-- A JavaScript value as far as the handler's truthiness tests observe it
(floating-point NaN does not arise in these fields). -/
inductive JSVal where
  | vNull
  | vUndef
  | vBool (b : Bool)
  | vNum (n : Int)
  | vStr (s : String)
  | vArr (n : Nat)
  | vObj
  deriving Repr, DecidableEq

/-- JavaScript truthiness: null, undefined, false, 0 and the empty string
are falsy; every object and array is truthy. -/
def truthy : JSVal → Bool
  | .vNull => false
  | .vUndef => false
  | .vBool b => b
  | .vNum n => n != 0
  | .vStr s => s != ""
  | .vArr _ => true
  | .vObj => true

/-- The fields of an inbound channel message that `handleMessage` reads
(an absent field reads as undefined). -/
structure WsMsg where
  id : JSVal
  type : JSVal
  data : JSVal
  success : JSVal
  error : JSVal
  deriving Repr, DecidableEq

/-- Correlator state: the key set of `pendingRequests` (line 25). -/
structure PState where
  pending : List String
  deriving Repr, DecidableEq

/-- Observable effect of processing one inbound message or one request
timeout: settle a pending request with a value, settle it with an error
message, emit a broadcast to the listeners of a type, or nothing. -/
inductive Effect where
  | settledOk (key : String) (v : JSVal)
  | settledErr (key : String) (msg : JSVal)
  | emitted (type : JSVal) (dataField : JSVal)
  | noEffect
  deriving Repr, DecidableEq

/-- The guard `data.id && this.pendingRequests.has(data.id)` (line 138):
the id field must be truthy and present as a key of the pending map (the
map's keys are strings, so a non-string id is never present). -/
def matchesPending (pending : List String) (idv : JSVal) : Bool :=
  truthy idv &&
    (match idv with
     | .vStr s => pending.contains s
     | _ => false)

/-- The rejection reason `data.error || "Unknown error"` (line 145). -/
def responseErrVal (e : JSVal) : JSVal :=
  if truthy e then e else .vStr "Unknown error"

/-- Deletion of a key from the pending map (`pendingRequests.delete`,
lines 140 and 218): a map keyed by id loses exactly that key. -/
def removeKey (pending : List String) (key : String) : List String :=
  pending.filter (fun k => decide (k ≠ key))

/-- The broadcast branch of `handleMessage` (lines 150-153): emit to the
listeners of `data.type` iff both `data.type` and `data.data` are truthy. -/
def broadcastStep (s : PState) (m : WsMsg) : PState × Effect :=
  if truthy m.type && truthy m.data then (s, .emitted m.type m.data)
  else (s, .noEffect)

/-- `handleMessage` (lines 134-154): a message whose truthy `id` matches a
pending entry deletes the entry and settles it — resolving with `data.data`
when `data.success` is truthy, rejecting with the carried error otherwise;
any other message goes to the broadcast branch. -/
def handleMessage (s : PState) (m : WsMsg) : PState × Effect :=
  if matchesPending s.pending m.id then
    (match m.id with
     | .vStr key =>
         ({ pending := removeKey s.pending key },
          if truthy m.success then .settledOk key m.data
          else .settledErr key (responseErrVal m.error))
     | _ => (s, .noEffect))
  else broadcastStep s m

/-- The 30 000 ms per-request timeout callback (lines 216-221): if the id
is still pending, delete it and reject with "Request timeout"; otherwise do
nothing. -/
def timeoutFire (s : PState) (key : String) : PState × Effect :=
  if s.pending.contains key then
    ({ pending := removeKey s.pending key },
     .settledErr key (.vStr "Request timeout"))
  else (s, .noEffect)

/-- A key is gone after its own removal. -/
theorem removeKey_self_not_mem (pending : List String) (key : String) :
    key ∉ removeKey pending key := by
  intro hmem
  have := List.of_mem_filter hmem
  simp at this

/-- State read by `sendRequest`'s entry guard and mutated by registration
(lines 196-213). -/
structure RequestCtx where
  useWebSocket : Bool
  isConnected : Bool
  socketExists : Bool
  pending : List String
  deriving Repr, DecidableEq

/-- Outcome of the synchronous part of `sendRequest` (lines 196-213):
either an immediate throw of the transport-unavailable error, or the
registration of a fresh pending entry followed by emitting the request on
the channel (the Bool records that the request was sent). -/
def sendRequestEntry (c : RequestCtx) (newId : String) :
    RequestCtx × Bool × Except String String :=
  if !c.useWebSocket || !c.isConnected || !c.socketExists then
    (c, false, .error "Socket.IO не підключений")
  else
    ({ c with pending := c.pending ++ [newId] }, true, .ok newId)

end WsClient

namespace WsClient

/-- Claim C5: a pending entry for id X is settled exactly once, by whichever
of the matching response and X's timeout happens first, and the later of the
two is a no-op: response-then-timeout settles on the response and the
timeout does nothing; timeout-then-response rejects on the timeout and the
late response (a response-shaped message, no `type` field) is silently
discarded without settling anything. -/
theorem pending_settled_exactly_once (p : List String) (key : String)
    (succ dataV errV : JSVal) (hk : key ≠ "") (hmem : key ∈ p) :
    (let m : WsMsg :=
       { id := .vStr key, type := .vUndef, data := dataV,
         success := succ, error := errV }
     let s : PState := { pending := p }
     (((handleMessage s m).2 =
         (if truthy succ then Effect.settledOk key dataV
          else Effect.settledErr key (responseErrVal errV))) ∧
       (timeoutFire (handleMessage s m).1 key).2 = Effect.noEffect) ∧
     ((timeoutFire s key).2 = Effect.settledErr key (.vStr "Request timeout") ∧
       (handleMessage (timeoutFire s key).1 m).2 = Effect.noEffect)) := by
  have hmp : matchesPending p (JSVal.vStr key) = true := by
    simp [matchesPending, truthy, hmem]
    simpa using hk
  have hmp2 : matchesPending (removeKey p key) (JSVal.vStr key) = false := by
    simp [matchesPending, truthy, removeKey_self_not_mem]
  refine ⟨⟨?_, ?_⟩, ?_, ?_⟩
  · simp [handleMessage, hmp]
  · simp [handleMessage, hmp, timeoutFire, removeKey_self_not_mem]
  · simp [timeoutFire, hmem]
  · simp [timeoutFire, hmem, handleMessage, hmp2, broadcastStep, truthy]

/-- Witness for C5 at a concrete pending map and response. -/
theorem pending_settled_exactly_once_witness :
    (let m : WsMsg :=
       { id := .vStr "req1", type := .vUndef, data := .vArr 2,
         success := .vBool true, error := .vUndef }
     let s : PState := { pending := ["req1", "req2"] }
     (((handleMessage s m).2 =
         (if truthy (JSVal.vBool true) then Effect.settledOk "req1" (.vArr 2)
          else Effect.settledErr "req1" (responseErrVal .vUndef))) ∧
       (timeoutFire (handleMessage s m).1 "req1").2 = Effect.noEffect) ∧
     ((timeoutFire s "req1").2 =
         Effect.settledErr "req1" (.vStr "Request timeout") ∧
       (handleMessage (timeoutFire s "req1").1 m).2 = Effect.noEffect)) :=
  pending_settled_exactly_once ["req1", "req2"] "req1"
    (.vBool true) (.vArr 2) .vUndef (by decide) (by decide)

/-- Claim C7: when the client is not connected or the transport mode is not
ChannelPreferred, `sendRequest` fails immediately with the
transport-unavailable error, sends nothing on the channel, and leaves the
pending-request map unchanged. -/
theorem sendRequest_guard_fails_fast (c : RequestCtx) (newId : String)
    (h : c.isConnected = false ∨ c.useWebSocket = false) :
    sendRequestEntry c newId = (c, false, .error "Socket.IO не підключений") := by
  rcases h with h | h <;> simp [sendRequestEntry, h]

/-- Witness for C7 at a concrete disconnected context. -/
theorem sendRequest_guard_fails_fast_witness :
    (let c : RequestCtx :=
       { useWebSocket := true, isConnected := false, socketExists := true,
         pending := ["old"] }
     sendRequestEntry c "new1" =
       (c, false, .error "Socket.IO не підключений")) :=
  sendRequest_guard_fails_fast _ "new1" (Or.inl rfl)

/-- Claim C10: an inbound message not matched to a pending request by id is
emitted to listeners iff both its `type` field and its `data` field are
truthy; in particular a broadcast whose `data` is null, undefined, 0, false
or the empty string is dropped with no effect. -/
theorem broadcast_requires_truthy_type_and_data (s : PState) (m : WsMsg)
    (hnm : matchesPending s.pending m.id = false) :
    ((truthy m.type && truthy m.data) = true →
      (handleMessage s m).2 = Effect.emitted m.type m.data) ∧
    ((truthy m.type && truthy m.data) = false →
      (handleMessage s m).2 = Effect.noEffect) ∧
    (handleMessage s m).1 = s := by
  have hred : handleMessage s m = broadcastStep s m := by
    simp [handleMessage, hnm]
  refine ⟨fun ht => ?_, fun ht => ?_, ?_⟩
  · rw [hred]
    simp [broadcastStep, ht]
  · rw [hred]
    simp [broadcastStep, ht]
  · rw [hred]
    unfold broadcastStep
    split <;> rfl

/-- Witness for C10: a broadcast with truthy type and falsy data (the
number 0) is dropped. -/
theorem broadcast_requires_truthy_type_and_data_witness :
    (let s : PState := { pending := ["req1"] }
     let m : WsMsg :=
       { id := .vUndef, type := .vStr "sessions_update", data := .vNum 0,
         success := .vUndef, error := .vUndef }
     ((truthy m.type && truthy m.data) = false →
       (handleMessage s m).2 = Effect.noEffect)) :=
  fun h =>
    (broadcast_requires_truthy_type_and_data _ _ (by decide)).2.1 h

end WsClient

namespace WsClient

/-!
Subscription registry (lines 182-290).  Each subscribe/unsubscribe method
is guarded by `useWebSocket`; inside the guard it calls the fire-and-forget
`sendMessage` and then mutates the `subscriptions` set.  `sendMessage`
(lines 182-194) actually emits on the channel only when `useWebSocket`,
`isConnected` and a non-null socket all hold.  The JS `Set` is embedded as
a duplicate-free-by-construction list in insertion order.
-/

/-- State read and written by the subscription methods. -/
structure SubState where
  useWebSocket : Bool
  isConnected : Bool
  socketExists : Bool
  subscriptions : List String
  deriving Repr, DecidableEq

/-- `Set.add`: append the key if absent, otherwise unchanged. -/
def addSub (subs : List String) (key : String) : List String :=
  if subs.contains key then subs else subs ++ [key]

/-- Whether `sendMessage` (lines 182-194) actually emits a control message
on the channel rather than returning after its guard. -/
def sendMessageSends (s : SubState) : Bool :=
  s.useWebSocket && s.isConnected && s.socketExists

/-- `subscribeToSessions` (lines 226-233).  The Bool records whether a
control message was emitted on the channel. -/
def subscribeToSessions (s : SubState) : SubState × Bool :=
  if s.useWebSocket then
    ({ s with subscriptions := addSub s.subscriptions "sessions" },
     sendMessageSends s)
  else (s, false)

/-- `unsubscribeFromSessions` (lines 235-240). -/
def unsubscribeFromSessions (s : SubState) : SubState × Bool :=
  if s.useWebSocket then
    ({ s with subscriptions := removeKey s.subscriptions "sessions" },
     sendMessageSends s)
  else (s, false)

/-- `subscribeToTrades` (lines 242-251); topic key `trades_<sessionId>`. -/
def subscribeToTrades (s : SubState) (sessionId : String) : SubState × Bool :=
  if s.useWebSocket then
    ({ s with subscriptions := addSub s.subscriptions ("trades_" ++ sessionId) },
     sendMessageSends s)
  else (s, false)

/-- `unsubscribeFromTrades` (lines 253-258). -/
def unsubscribeFromTrades (s : SubState) (sessionId : String) : SubState × Bool :=
  if s.useWebSocket then
    ({ s with subscriptions := removeKey s.subscriptions ("trades_" ++ sessionId) },
     sendMessageSends s)
  else (s, false)

/-- `subscribeToMarketAnalysis` (lines 260-267); topic key
`market_analysis_<symbol>`. -/
def subscribeToMarketAnalysis (s : SubState) (symbol : String) : SubState × Bool :=
  if s.useWebSocket then
    ({ s with subscriptions := addSub s.subscriptions ("market_analysis_" ++ symbol) },
     sendMessageSends s)
  else (s, false)

/-- `unsubscribeFromMarketAnalysis` (lines 269-274). -/
def unsubscribeFromMarketAnalysis (s : SubState) (symbol : String) : SubState × Bool :=
  if s.useWebSocket then
    ({ s with subscriptions := removeKey s.subscriptions ("market_analysis_" ++ symbol) },
     sendMessageSends s)
  else (s, false)

/-- `subscribeToBalance` (lines 276-283). -/
def subscribeToBalance (s : SubState) : SubState × Bool :=
  if s.useWebSocket then
    ({ s with subscriptions := addSub s.subscriptions "balance" },
     sendMessageSends s)
  else (s, false)

/-- `unsubscribeFromBalance` (lines 285-290). -/
def unsubscribeFromBalance (s : SubState) : SubState × Bool :=
  if s.useWebSocket then
    ({ s with subscriptions := removeKey s.subscriptions "balance" },
     sendMessageSends s)
  else (s, false)

end WsClient

namespace WsClient

/-- Counterexample to claim C8: with TransportMode FallbackOnly
(`useWebSocket = false`), `unsubscribeFromSessions` does not remove the
key — the whole method body is inside the `useWebSocket` guard, so the
subscription set still contains "sessions" after the call. -/
theorem unsubscribe_noop_in_fallback_mode :
    (let s : SubState :=
       { useWebSocket := false, isConnected := false, socketExists := false,
         subscriptions := ["sessions"] }
     (unsubscribeFromSessions s).1.subscriptions.contains "sessions" = true) := by
  decide

/-- Claim C8 (amended): each unsubscribe operation removes its topic key
from the subscription set whenever TransportMode is ChannelPreferred
(`useWebSocket = true`), regardless of connection state; when TransportMode
is FallbackOnly the call leaves the state unchanged (the key is not
removed). -/
theorem unsubscribe_removes_key (s : SubState) (sessionId symbol : String)
    (h : s.useWebSocket = true) :
    "sessions" ∉ (unsubscribeFromSessions s).1.subscriptions ∧
    ("trades_" ++ sessionId) ∉ (unsubscribeFromTrades s sessionId).1.subscriptions ∧
    ("market_analysis_" ++ symbol) ∉
      (unsubscribeFromMarketAnalysis s symbol).1.subscriptions ∧
    "balance" ∉ (unsubscribeFromBalance s).1.subscriptions := by
  refine ⟨?_, ?_, ?_, ?_⟩ <;>
    simp [unsubscribeFromSessions, unsubscribeFromTrades,
          unsubscribeFromMarketAnalysis, unsubscribeFromBalance, h,
          removeKey_self_not_mem]

/-- Witness for the amended C8 at a concrete channel-preferred state. -/
theorem unsubscribe_removes_key_witness :
    (let s : SubState :=
       { useWebSocket := true, isConnected := false, socketExists := true,
         subscriptions := ["sessions", "trades_s1", "market_analysis_BTCUSDT",
                           "balance"] }
     "sessions" ∉ (unsubscribeFromSessions s).1.subscriptions ∧
     ("trades_" ++ "s1") ∉ (unsubscribeFromTrades s "s1").1.subscriptions ∧
     ("market_analysis_" ++ "BTCUSDT") ∉
       (unsubscribeFromMarketAnalysis s "BTCUSDT").1.subscriptions ∧
     "balance" ∉ (unsubscribeFromBalance s).1.subscriptions) :=
  unsubscribe_removes_key _ "s1" "BTCUSDT" rfl

/-- Counterexample to claim C9: with the channel not connected but
TransportMode still ChannelPreferred, `subscribeToSessions` sends nothing
yet DOES change client state — the subscription set gains the key
"sessions", so the call is not a local no-op. -/
theorem subscribe_mutates_while_disconnected :
    (let s : SubState :=
       { useWebSocket := true, isConnected := false, socketExists := false,
         subscriptions := [] }
     (subscribeToSessions s).2 = false ∧
       (subscribeToSessions s).1.subscriptions = ["sessions"]) := by
  decide

/-- Claim C9 (amended): when the channel is not connected no control
message is emitted by any subscribe/unsubscribe operation; but the
subscription set is still mutated whenever TransportMode is
ChannelPreferred — only with TransportMode FallbackOnly is the call a
complete local no-op (state unchanged and nothing sent). -/
theorem subscribe_unsubscribe_disconnected (s : SubState)
    (sessionId symbol : String) (hconn : s.isConnected = false) :
    ((subscribeToSessions s).2 = false ∧
     (unsubscribeFromSessions s).2 = false ∧
     (subscribeToTrades s sessionId).2 = false ∧
     (unsubscribeFromTrades s sessionId).2 = false ∧
     (subscribeToMarketAnalysis s symbol).2 = false ∧
     (unsubscribeFromMarketAnalysis s symbol).2 = false ∧
     (subscribeToBalance s).2 = false ∧
     (unsubscribeFromBalance s).2 = false) ∧
    (s.useWebSocket = false →
      (subscribeToSessions s).1 = s ∧
      (unsubscribeFromSessions s).1 = s ∧
      (subscribeToTrades s sessionId).1 = s ∧
      (unsubscribeFromTrades s sessionId).1 = s ∧
      (subscribeToMarketAnalysis s symbol).1 = s ∧
      (unsubscribeFromMarketAnalysis s symbol).1 = s ∧
      (subscribeToBalance s).1 = s ∧
      (unsubscribeFromBalance s).1 = s) ∧
    (s.useWebSocket = true →
      (subscribeToSessions s).1.subscriptions =
        addSub s.subscriptions "sessions") := by
  refine ⟨?_, fun h => ?_, fun h => ?_⟩
  · refine ⟨?_, ?_, ?_, ?_, ?_, ?_, ?_, ?_⟩ <;>
      (simp [subscribeToSessions, unsubscribeFromSessions, subscribeToTrades,
             unsubscribeFromTrades, subscribeToMarketAnalysis,
             unsubscribeFromMarketAnalysis, subscribeToBalance,
             unsubscribeFromBalance, sendMessageSends, hconn];
       split <;> rfl)
  · refine ⟨?_, ?_, ?_, ?_, ?_, ?_, ?_, ?_⟩ <;>
      simp [subscribeToSessions, unsubscribeFromSessions, subscribeToTrades,
            unsubscribeFromTrades, subscribeToMarketAnalysis,
            unsubscribeFromMarketAnalysis, subscribeToBalance,
            unsubscribeFromBalance, h]
  · simp [subscribeToSessions, h]

/-- Witness for the amended C9 at a concrete disconnected fallback state. -/
theorem subscribe_unsubscribe_disconnected_witness :
    (let s : SubState :=
       { useWebSocket := false, isConnected := false, socketExists := false,
         subscriptions := ["balance"] }
     (subscribeToSessions s).2 = false ∧
       ((false : Bool) = false → (subscribeToSessions s).1 = s)) := by
  refine ⟨((subscribe_unsubscribe_disconnected _ "s1" "BTCUSDT" rfl).1).1,
          fun _ => ((subscribe_unsubscribe_disconnected _ "s1" "BTCUSDT" rfl).2.1 rfl).1⟩

end WsClient

namespace WsClient

/-!
Fallback dispatcher / public API facade (lines 292-680).  Every facade
method has the shape: if `useWebSocket && isConnected`, try the channel
request and catch any rejection; then (after the catch, or when the guard
failed) perform the stateless fetch call.  `getAllSessions`,
`getMarketAnalysisBatch` and `getTotalBalance` additionally attempt, inside
the catch and only for the two transport-error messages, one reconnect and
one retried channel request, whose own failure is swallowed by the inner
catch.  The outcome of each asynchronous sub-call is an explicit parameter;
the result classifies which path produced the settled promise.
-/

/-- A rejection of the channel path: the `sendRequest` guard throw, the
30 s request timeout, or a response with `success: false` carrying the
server's error message. -/
inductive ChErr where
  | requestTimeout
  | notConnected
  | serverRejected (msg : String)
  deriving Repr, DecidableEq

/-- The `message` property of the rejection (compared at lines 303-306 and
420-423 against the two transport-error strings). -/
def chErrMessage : ChErr → String
  | .requestTimeout => "Request timeout"
  | .notConnected => "Socket.IO не підключений"
  | .serverRejected m => m

/-- A failure of the stateless fetch path: the fetch itself rejecting, or a
non-ok status converted to a thrown descriptive error. -/
inductive FbErr where
  | fetchRejected
  | httpNotOk (msg : String)
  deriving Repr, DecidableEq

/-- How a facade method's promise settles, classified by producing path. -/
inductive DispatchResult (α : Type) where
  | chOk (v : α)
  | fbOk (v : α)
  | fbErr (e : FbErr)
  | chErr (e : ChErr)
  deriving Repr, DecidableEq

/-- The trailing stateless call of every facade method: its success value
resolves the promise, its failure rejects the promise. -/
def fallbackCall {α : Type} (fb : Except FbErr α) : DispatchResult α :=
  match fb with
  | .ok v => .fbOk v
  | .error e => .fbErr e

/-- The facade shape without the reconnect-retry step (getSessionStatus,
getSessionTrades, getMarketAnalysis, getAvailableSymbols,
initializeSession, closeSession, analyzeAndTrade, updateVolatilityCheck,
getActiveSessionsWithROI, getActivePositionsCount, getServerInfo): the
catch swallows every channel rejection, demotes `useWebSocket`, and control
falls through to the stateless call. -/
def dispatchSimple {α : Type} (useWebSocket isConnected : Bool)
    (ch : Except ChErr α) (fb : Except FbErr α) : DispatchResult α :=
  if useWebSocket && isConnected then
    match ch with
    | .ok v => .chOk v
    | .error _ => fallbackCall fb
  else fallbackCall fb

/-- The facade shape with the single reconnect-and-retry step
(getAllSessions, getMarketAnalysisBatch, getTotalBalance; lines 293-328,
390-452, 454-495).  `reconnSucceeds` is `isConnected` after the awaited
`connect()` (which never rejects); a rejection of the retried request is
swallowed by the inner catch, after which control falls through to the
stateless call. -/
def dispatchWithRetry {α : Type} (useWebSocket isConnected : Bool)
    (ch : Except ChErr α) (reconnSucceeds : Bool) (retry : Except ChErr α)
    (fb : Except FbErr α) : DispatchResult α :=
  if useWebSocket && isConnected then
    match ch with
    | .ok v => .chOk v
    | .error e =>
      if chErrMessage e = "Request timeout" ∨
         chErrMessage e = "Socket.IO не підключений" then
        if reconnSucceeds then
          match retry with
          | .ok v => .chOk v
          | .error _ => fallbackCall fb
        else fallbackCall fb
      else fallbackCall fb
  else fallbackCall fb

end WsClient

namespace WsClient

/-- Claim C1: no facade method ever lets a channel-path failure propagate:
for both facade shapes (with and without the reconnect-retry step), under
every combination of guard state and sub-call outcomes the settled result
is never a channel error, and the promise rejects only with the error of
the stateless fallback call — i.e. a rejection implies the fallback call
itself failed with that error. -/
theorem channel_failure_never_propagates {α : Type}
    (uw ic rs : Bool) (ch retry : Except ChErr α) (fb : Except FbErr α) :
    (∀ e, dispatchSimple uw ic ch fb ≠ DispatchResult.chErr e) ∧
    (∀ e, dispatchWithRetry uw ic ch rs retry fb ≠ DispatchResult.chErr e) ∧
    (∀ e, dispatchSimple uw ic ch fb = DispatchResult.fbErr e →
      fb = Except.error e) ∧
    (∀ e, dispatchWithRetry uw ic ch rs retry fb = DispatchResult.fbErr e →
      fb = Except.error e) := by
  have hfb1 : ∀ e : ChErr, fallbackCall fb ≠ DispatchResult.chErr e := by
    cases fb <;> simp [fallbackCall]
  have hfb2 : ∀ e : FbErr, fallbackCall fb = DispatchResult.fbErr e →
      fb = Except.error e := by
    cases fb <;> simp [fallbackCall]
  refine ⟨fun e => ?_, fun e => ?_, fun e h => ?_, fun e h => ?_⟩
  · unfold dispatchSimple
    split
    · cases ch with
      | ok v => simp
      | error e0 => exact hfb1 e
    · exact hfb1 e
  · unfold dispatchWithRetry
    split
    · cases ch with
      | ok v => simp
      | error e0 =>
        simp only
        split
        · split
          · cases retry with
            | ok v => simp
            | error e1 => exact hfb1 e
          · exact hfb1 e
        · exact hfb1 e
    · exact hfb1 e
  · unfold dispatchSimple at h
    split at h
    · cases ch with
      | ok v => simp at h
      | error e0 => exact hfb2 e h
    · exact hfb2 e h
  · unfold dispatchWithRetry at h
    split at h
    · cases ch with
      | ok v => simp at h
      | error e0 =>
        simp only at h
        split at h
        · split at h
          · cases retry with
            | ok v => simp at h
            | error e1 => exact hfb2 e h
          · exact hfb2 e h
        · exact hfb2 e h
    · exact hfb2 e h

/-- Witness for C1: with the channel preferred and connected, a request
timeout, a failed reconnect, and a failing stateless call, both shapes
reject with exactly the fallback error and neither is a channel error. -/
theorem channel_failure_never_propagates_witness :
    (∀ e, dispatchSimple true true (Except.error ChErr.requestTimeout)
        (Except.error (FbErr.httpNotOk "Помилка завантаження сесій") :
          Except FbErr (List Nat)) ≠ DispatchResult.chErr e) ∧
    (dispatchWithRetry true true (Except.error ChErr.requestTimeout) false
        (Except.error ChErr.requestTimeout)
        (Except.error (FbErr.httpNotOk "Помилка завантаження сесій") :
          Except FbErr (List Nat)) =
          DispatchResult.fbErr (FbErr.httpNotOk "Помилка завантаження сесій") →
      (Except.error (FbErr.httpNotOk "Помилка завантаження сесій") :
          Except FbErr (List Nat)) =
        Except.error (FbErr.httpNotOk "Помилка завантаження сесій")) :=
  ⟨(channel_failure_never_propagates true true false
      (Except.error ChErr.requestTimeout) (Except.error ChErr.requestTimeout)
      (Except.error (FbErr.httpNotOk "Помилка завантаження сесій"))).1,
   (channel_failure_never_propagates true true false
      (Except.error ChErr.requestTimeout) (Except.error ChErr.requestTimeout)
      (Except.error (FbErr.httpNotOk "Помилка завантаження сесій"))).2.2.2
      (FbErr.httpNotOk "Помилка завантаження сесій")⟩

end WsClient
